import Mathlib

/-!
Verification of the Bookii PDF-library application: a shallow embedding of
the data model (src/types.ts), the library view's upload and filter logic
(src/App.tsx), the reader's navigation, zoom, progress and controls logic
and its per-page render scheduling (src/PdfReader.tsx), together with
theorems settling the stated properties of that code.
-/

namespace Bookii

/-- An uploaded file as the upload handler sees it: its name and its MIME
type (`file.name`, `file.type` in src/App.tsx `handleFileUpload`). -/
structure File where
  name : String
  type : String
deriving DecidableEq, Repr

/-- The persisted book record, from `Book` in src/types.ts.  The optional
TypeScript fields `thumbnail?`, `summary?` and `isMarked?` are `Option`s;
`blob` is the uploaded file itself. -/
structure Book where
  id : String
  title : String
  fileName : String
  blob : File
  thumbnail : Option String
  lastPage : Nat
  addedAt : Nat
  summary : Option String
  isMarked : Option Bool
deriving DecidableEq, Repr

/-- Truthiness of an optional boolean, as JavaScript evaluates an
`isMarked?: boolean` field: `undefined` and `false` are falsy. -/
def truthy : Option Bool → Bool
  | some b => b
  | none => false

/-! ## The record store (services/dbService)

The `dbService` module is imported by src/App.tsx and src/PdfReader.tsx but
its source is not among the repository files; the operations below are
modelled from the spec's description of the Record Store. -/

/-- Modelled from the spec: `saveBook` of `services/dbService` is not in the
repository sources; spec section 4.1 describes it as `insert-or-replace one
record` keyed by identifier. -/
def saveBook (store : List Book) (b : Book) : List Book :=
  if store.any (fun x => x.id = b.id) then
    store.map fun x => if x.id = b.id then b else x
  else store ++ [b]

/-- Modelled from the spec: `getAllBooks` of `services/dbService` is not in
the repository sources; spec section 4.1 describes it as `list-all
records`. -/
def getAllBooks (store : List Book) : List Book := store

/-- Modelled from the spec: `updateLastPage` of `services/dbService` is not
in the repository sources; spec section 4.1 describes it as `update a single
field (last-page) by identifier`. -/
def updateLastPage (store : List Book) (id : String) (page : Nat) : List Book :=
  store.map fun b => if b.id = id then { b with lastPage := page } else b

/-! ## Upload (src/App.tsx, handleFileUpload) -/

/-- Helper for `stripExtension`, working on the reversed character list of
the file name: walks the candidate extension characters and, on reaching a
dot after at least one non-dot non-slash character, returns the part before
that dot; a slash, a leading dot from the right, or running out of
characters means the regex does not match. -/
def cutExtRev : List Char → Nat → Option (List Char)
  | [], _ => none
  | c :: rest, taken =>
    if c = '/' then none
    else if c = '.' then (if taken = 0 then none else some rest)
    else cutExtRev rest (taken + 1)

/-- Embeds the title derivation of `handleFileUpload` (src/App.tsx):
`file.name.replace(/\.[^/.]+$/, "")`, removing a trailing dot followed by
one or more characters none of which is a dot or a slash. -/
def stripExtension (s : String) : String :=
  match cutExtRev s.data.reverse 0 with
  | none => s
  | some kept => String.mk kept.reverse

/-- The environment an upload runs in: the identifier the handler generates
(via `crypto.randomUUID` or the random fallback), `Date.now()` at record
creation, and the outcomes of the best-effort enrichment calls and the
store write.  `none` for an enrichment outcome models the call throwing
(its exception is caught and logged); `saveSucceeds = false` models
`saveBook` throwing. -/
structure UploadEnv where
  genId : String
  now : Nat
  thumbnailResult : Option String
  previewTextResult : Option String
  summaryResult : Option String
  saveSucceeds : Bool
deriving DecidableEq, Repr

/-- The summary field the upload ends up with (src/App.tsx lines 55-64): it
is set only when `extractTextForSummary` returned a truthy (non-empty)
preview text and `getBookSummary` then returned without throwing. -/
def uploadedSummary (env : UploadEnv) : Option String :=
  match env.previewTextResult with
  | none => none
  | some txt => if txt = "" then none else env.summaryResult

/-- Outcome of one run of `handleFileUpload`: no file selected, the non-PDF
rejection alert, the record saved, or the store-write failure alert. -/
inductive UploadOutcome where
  | noFile
  | rejectedNonPdf
  | saved (b : Book)
  | saveFailed
deriving DecidableEq, Repr

/-- The record `handleFileUpload` builds (the `newBook` local of
src/App.tsx lines 66-76): the generated id, the title with the file
extension stripped, the original file name, the file itself as the blob,
the best-effort thumbnail and summary, `lastPage: 1`,
`addedAt: Date.now()` and `isMarked: false`. -/
def newBook (env : UploadEnv) (f : File) : Book :=
  { id := env.genId
    title := stripExtension f.name
    fileName := f.name
    blob := f
    thumbnail := env.thumbnailResult
    lastPage := 1
    addedAt := env.now
    summary := uploadedSummary env
    isMarked := some false }

/-- Embeds `handleFileUpload` (src/App.tsx lines 32-87): bail out when no
file was picked; reject a file whose MIME type is not `application/pdf`
before anything else runs; otherwise build `newBook` and write it to the
store (a throwing `saveBook` reaches the catch block instead).  Returns
the outcome together with the store after the run. -/
def handleFileUpload (env : UploadEnv) (file : Option File) (store : List Book) :
    UploadOutcome × List Book :=
  match file with
  | none => (UploadOutcome.noFile, store)
  | some f =>
    if f.type ≠ "application/pdf" then (UploadOutcome.rejectedNonPdf, store)
    else if env.saveSucceeds then
      (UploadOutcome.saved (newBook env f), saveBook store (newBook env f))
    else (UploadOutcome.saveFailed, store)

/-! ## Search and filter (src/App.tsx, filteredBooks) -/

/-- Character-wise lower-casing, embedding `String.prototype.toLowerCase`
as the filter applies it to titles and queries. -/
def jsToLower (s : String) : String := String.mk (s.data.map Char.toLower)

/-- Whether `pat` matches at the head of `s` (character-wise equality). -/
def leadMatch : List Char → List Char → Bool
  | [], _ => true
  | _ :: _, [] => false
  | p :: ps, c :: cs => p == c && leadMatch ps cs

/-- Whether `sub` occurs contiguously inside `s`, embedding
`String.prototype.includes`. -/
def containsSub (s sub : List Char) : Bool :=
  if leadMatch sub s then true
  else
    match s with
    | [] => false
    | _ :: t => containsSub t sub

/-- Embeds `s.includes(sub)` on strings. -/
def jsIncludes (s sub : String) : Bool := containsSub s.data sub.data

/-- The predicate of `filteredBooks` (src/App.tsx lines 111-115):
`matchesSearch` is the case-insensitive substring test on the title,
`matchesMarked` is the record's marked flag when the marked-only toggle is
on and `true` otherwise, and the book passes when both hold. -/
def bookMatches (searchQuery : String) (showOnlyMarked : Bool) (b : Book) : Bool :=
  jsIncludes (jsToLower b.title) (jsToLower searchQuery) &&
    (if showOnlyMarked then truthy b.isMarked else true)

/-- Embeds `filteredBooks = books.filter(...)` (src/App.tsx lines 111-115). -/
def filteredBooks (books : List Book) (searchQuery : String) (showOnlyMarked : Bool) :
    List Book :=
  books.filter (bookMatches searchQuery showOnlyMarked)

/-! ## Reader state (src/PdfReader.tsx, PdfReader component) -/

/-- The reader's component state: `numPages` and `docLoaded` from the
document load, `currentPage` as the header shows it, the shared zoom
`scale`, the controls-visibility boolean, and the page a footer click has
asked the container to scroll to (if any). -/
structure ReaderState where
  numPages : Nat
  currentPage : Nat
  scale : ℚ
  showControls : Bool
  docLoaded : Bool
  pendingScroll : Option Nat
deriving DecidableEq, Repr

/-- Embeds `useState<number>(book.lastPage || 1)` (src/PdfReader.tsx line
94): a falsy (zero) stored `lastPage` yields 1. -/
def initialCurrentPage (b : Book) : Nat :=
  if b.lastPage = 0 then 1 else b.lastPage

/-- Embeds the initial-scroll target `page-${book.lastPage || 1}` of the
first-load effect (src/PdfReader.tsx lines 120-128). -/
def initialScrollTargetPage (b : Book) : Nat :=
  if b.lastPage = 0 then 1 else b.lastPage

/-- The reader state the moment a book is opened, from the `useState`
initialisers of `PdfReader`: no pages counted yet, current page from the
record's `lastPage` (falsy gives 1), scale 1.0, controls shown, document
not loaded. -/
def openReader (b : Book) : ReaderState :=
  { numPages := 0
    currentPage := initialCurrentPage b
    scale := 1
    showControls := true
    docLoaded := false
    pendingScroll := none }

/-! ## Zoom (src/PdfReader.tsx lines 143-145) -/

/-- Embeds `zoomIn`: `setScale(prev => Math.min(prev + 0.2, 3.0))`. -/
def zoomIn (s : ℚ) : ℚ := min (s + 2/10) 3

/-- Embeds `zoomOut`: `setScale(prev => Math.max(prev - 0.2, 0.4))`. -/
def zoomOut (s : ℚ) : ℚ := max (s - 2/10) (4/10)

/-- Embeds `resetZoom`: `setScale(1.0)`. -/
def resetZoom : ℚ := 1

/-- One press of a zoom control. -/
inductive ZoomOp where
  | zin
  | zout
  | reset
deriving DecidableEq, Repr

/-- The scale after one zoom control press. -/
def applyZoom (s : ℚ) : ZoomOp → ℚ
  | ZoomOp.zin => zoomIn s
  | ZoomOp.zout => zoomOut s
  | ZoomOp.reset => resetZoom

/-- The reader's initial scale, `useState<number>(1.0)`. -/
def initialScale : ℚ := 1

/-- The scale after a sequence of zoom control presses, starting from the
initial scale. -/
def runZoom (ops : List ZoomOp) : ℚ := ops.foldl applyZoom initialScale

/-! ## Navigation (src/PdfReader.tsx, scrollToPage and the footer) -/

/-- Embeds the clamp of `scrollToPage`:
`Math.max(1, Math.min(pageNumber, numPages))`. -/
def scrollTarget (pageNumber numPages : Nat) : Nat :=
  max 1 (min pageNumber numPages)

/-- Embeds the previous-page button's `disabled={currentPage <= 1}`. -/
def prevDisabled (st : ReaderState) : Bool := st.currentPage ≤ 1

/-- Embeds the next-page button's `disabled={currentPage >= numPages}`. -/
def nextDisabled (st : ReaderState) : Bool := st.numPages ≤ st.currentPage

/-- A click on the previous-page button: a disabled button does nothing;
an enabled one asks the container to scroll to the clamped target
`scrollToPage(currentPage - 1)`.  `currentPage` itself changes only later,
through the visibility callback. -/
def clickPrev (st : ReaderState) : ReaderState :=
  if prevDisabled st then st
  else { st with pendingScroll := some (scrollTarget (st.currentPage - 1) st.numPages) }

/-- A click on the next-page button: a disabled button does nothing; an
enabled one asks the container to scroll to the clamped target
`scrollToPage(currentPage + 1)`. -/
def clickNext (st : ReaderState) : ReaderState :=
  if nextDisabled st then st
  else { st with pendingScroll := some (scrollTarget (st.currentPage + 1) st.numPages) }

/-! ## Progress persistence (src/PdfReader.tsx, handlePageVisible) -/

/-- The fire-and-forget store write `updateLastPage(book.id, pageNumber)`
that `handlePageVisible` issues. -/
structure WriteReq where
  bookId : String
  page : Nat
deriving DecidableEq, Repr

/-- Embeds `handlePageVisible` (src/PdfReader.tsx lines 130-133): the newly
visible page number becomes the current page and exactly one unawaited
`updateLastPage` write for it is issued. -/
def handlePageVisible (bookId : String) (st : ReaderState) (pageNumber : Nat) :
    ReaderState × WriteReq :=
  ({ st with currentPage := pageNumber }, ⟨bookId, pageNumber⟩)

/-- The eventual effect of the fire-and-forget write on the store: on
success the record's `lastPage` field is updated, on failure nothing
happens (the code attaches no handler to the returned promise, so neither
outcome flows back into the reader). -/
def applyWrite (store : List Book) (w : WriteReq) (ok : Bool) : List Book :=
  if ok then updateLastPage store w.bookId w.page else store

/-- One page-visibility event end to end: the reader state after
`handlePageVisible` and the store after the issued write settles with
outcome `ok`. -/
def pageVisibleRound (bookId : String) (st : ReaderState) (store : List Book)
    (pageNumber : Nat) (ok : Bool) : ReaderState × List Book :=
  let r := handlePageVisible bookId st pageNumber
  (r.1, applyWrite store r.2 ok)

/-! ## Controls visibility (src/PdfReader.tsx, toggleControls) -/

/-- Where a tap that reaches the scroll container's click handler landed:
on the container element itself (`e.target === e.currentTarget`), inside
one of the `.pdf-page-container` wrappers (on a page or its padding), or on
an element of the reading surface outside any page container (the inner
column wrapper).  Taps on the header and footer controls never reach this
handler: those bars are siblings of the container. -/
inductive TapTarget where
  | container
  | pageContainer
  | innerBackground
deriving DecidableEq, Repr

/-- Embeds the test `e.target === e.currentTarget`. -/
def targetIsCurrentTarget : TapTarget → Bool
  | TapTarget.container => true
  | _ => false

/-- Embeds the test `(e.target as HTMLElement).closest('.pdf-page-container')`
being non-null. -/
def targetInPageContainer : TapTarget → Bool
  | TapTarget.pageContainer => true
  | _ => false

/-- Embeds `toggleControls` (src/PdfReader.tsx lines 147-152): the boolean
flips when the tap hit the container element itself or anything inside a
page container, and nothing happens otherwise. -/
def toggleControls (t : TapTarget) (st : ReaderState) : ReaderState :=
  if targetIsCurrentTarget t || targetInPageContainer t then
    { st with showControls := !st.showControls }
  else st

/-- The claim's own toggle condition, stated from the spec's words for
comparison with the code: the boolean is toggled exactly when the tap lands
on the background of the reading surface and not on a page (taps on the
controls never reach the handler at all). -/
def claimToggleFires : TapTarget → Bool
  | TapTarget.container => true
  | TapTarget.innerBackground => true
  | TapTarget.pageContainer => false

/-- A concrete reader state used by the closed theorems below. -/
def readerState0 : ReaderState :=
  { numPages := 10
    currentPage := 3
    scale := 1
    showControls := true
    docLoaded := true
    pendingScroll := none }

/-! ## Per-page render scheduling (src/PdfReader.tsx, PdfPage.renderPage)

The cooperative async protocol of `renderPage`, as a step machine.  A call
of `renderPage` synchronously cancels the task held in
`renderTaskRef.current` (if any) and then suspends at
`await pdfDoc.getPage(pageNumber)`; when that await resumes, the canvas is
resized and `page.render(...)` starts a fresh render task, which is stored
in `renderTaskRef.current` and begins drawing; the task's promise resolves
once the drawing at that invocation's scale is complete, or rejects with
`RenderingCancelledException` when the task was cancelled (in which case it
draws nothing further and no completion is recorded). -/

/-- An invocation of `renderPage` suspended at `await pdfDoc.getPage`,
carrying the scale its closure captured. -/
structure RenderInv where
  invId : Nat
  scale : ℚ
deriving DecidableEq, Repr

/-- A render task started by `page.render`, drawing at the scale of the
invocation that created it. -/
structure RenderTask where
  taskId : Nat
  scale : ℚ
deriving DecidableEq, Repr

/-- The state of one page's render machinery: the task id stored in
`renderTaskRef.current`, the invocations suspended at `getPage`, the tasks
currently drawing on the page's canvas, and the scale of the drawing that
last completed on the canvas. -/
structure PageRenderState where
  renderTaskRef : Option Nat
  pendingGetPage : List RenderInv
  activeTasks : List RenderTask
  canvasScale : Option ℚ
  nextInvId : Nat
  nextTaskId : Nat
deriving DecidableEq, Repr

/-- The scheduler events of the protocol: `call scale` is an invocation of
`renderPage` (from the intersection observer or a scale-change re-run);
`getPageDone i` resumes suspended invocation `i` past its `getPage` await;
`taskDone t` is render task `t` finishing its drawing. -/
inductive RenderEvent where
  | call (scale : ℚ)
  | getPageDone (invId : Nat)
  | taskDone (taskId : Nat)
deriving DecidableEq, Repr

/-- One step of the render protocol.  On `call`, the task named by
`renderTaskRef.current` is cancelled (it stops drawing) and the invocation
suspends at `getPage`; on `getPageDone`, the resumed invocation starts a
fresh task at its captured scale and stores it in the ref; on `taskDone`, a
task still drawing completes and its scale becomes the canvas content. -/
def renderStep (st : PageRenderState) : RenderEvent → PageRenderState
  | RenderEvent.call s =>
    let active := match st.renderTaskRef with
      | some tid => st.activeTasks.filter fun t => t.taskId ≠ tid
      | none => st.activeTasks
    { st with
        activeTasks := active
        pendingGetPage := st.pendingGetPage ++ [⟨st.nextInvId, s⟩]
        nextInvId := st.nextInvId + 1 }
  | RenderEvent.getPageDone i =>
    match st.pendingGetPage.find? (fun inv => inv.invId = i) with
    | none => st
    | some inv =>
      { st with
          pendingGetPage := st.pendingGetPage.filter fun v => v.invId ≠ i
          activeTasks := st.activeTasks ++ [⟨st.nextTaskId, inv.scale⟩]
          renderTaskRef := some st.nextTaskId
          nextTaskId := st.nextTaskId + 1 }
  | RenderEvent.taskDone t =>
    match st.activeTasks.find? (fun tk => tk.taskId = t) with
    | none => st
    | some tk =>
      { st with
          activeTasks := st.activeTasks.filter fun tk2 => tk2.taskId ≠ t
          canvasScale := some tk.scale }

/-- The page's render state before anything has happened. -/
def initialRenderState : PageRenderState :=
  { renderTaskRef := none
    pendingGetPage := []
    activeTasks := []
    canvasScale := none
    nextInvId := 0
    nextTaskId := 0 }

/-- The render state after a sequence of scheduler events. -/
def runRender (events : List RenderEvent) : PageRenderState :=
  events.foldl renderStep initialRenderState

/-! ## Concrete values used by the witness theorems -/

/-- A concrete upload environment: fresh id, upload time 5, both
enrichment calls failing, store write succeeding. -/
def envW : UploadEnv :=
  { genId := "id-1"
    now := 5
    thumbnailResult := none
    previewTextResult := none
    summaryResult := none
    saveSucceeds := true }

/-- A concrete valid PDF selection. -/
def fileW : File := { name := "Clean Code.pdf", type := "application/pdf" }

/-- A concrete non-PDF selection. -/
def filePlainW : File := { name := "notes.txt", type := "text/plain" }

/-! ## Helper lemmas -/

lemma containsSub_nil (l : List Char) : containsSub l [] = true := by
  cases l <;> rfl

lemma jsIncludes_empty (s : String) : jsIncludes s "" = true := by
  rw [jsIncludes]
  exact containsSub_nil s.data

lemma jsToLower_empty : jsToLower "" = "" := rfl

lemma bookMatches_empty (b : Book) : bookMatches "" false b = true := by
  simp [bookMatches, jsToLower_empty, jsIncludes_empty]

lemma mem_saveBook (store : List Book) (b : Book) : b ∈ saveBook store b := by
  unfold saveBook
  split
  · next h =>
    simp only [List.any_eq_true, decide_eq_true_eq] at h
    obtain ⟨x, hx, hid⟩ := h
    exact List.mem_map.mpr ⟨x, hx, by simp [hid]⟩
  · exact List.mem_append_right _ (List.mem_singleton.mpr rfl)

lemma saveBook_fresh (store : List Book) (b : Book)
    (hfresh : ∀ x ∈ store, x.id ≠ b.id) : saveBook store b = store ++ [b] := by
  unfold saveBook
  rw [if_neg]
  simp only [List.any_eq_true, decide_eq_true_eq, not_exists]
  intro x
  exact fun hx => hfresh x hx.1 hx.2

lemma count_id_saveBook (store : List Book) (b : Book)
    (hfresh : ∀ x ∈ store, x.id ≠ b.id) :
    ((saveBook store b).countP fun x => x.id = b.id) = 1 := by
  rw [saveBook_fresh store b hfresh, List.countP_append]
  have h0 : (store.countP fun x => x.id = b.id) = 0 := by
    rw [List.countP_eq_zero]
    intro a ha
    simpa using hfresh a ha
  rw [h0]
  simp [List.countP_cons]

lemma handleFileUpload_pdf (env : UploadEnv) (f : File) (store : List Book)
    (hpdf : f.type = "application/pdf") (hsave : env.saveSucceeds = true) :
    handleFileUpload env (some f) store =
      (UploadOutcome.saved (newBook env f), saveBook store (newBook env f)) := by
  simp [handleFileUpload, hpdf, hsave]

lemma applyZoom_bounds {s : ℚ} (h1 : 4/10 ≤ s) (h2 : s ≤ 3) (op : ZoomOp) :
    4/10 ≤ applyZoom s op ∧ applyZoom s op ≤ 3 := by
  cases op with
  | zin =>
    simp only [applyZoom, zoomIn]
    exact ⟨le_min (by linarith) (by norm_num), min_le_right _ _⟩
  | zout =>
    simp only [applyZoom, zoomOut]
    exact ⟨le_max_right _ _, max_le (by linarith) (by norm_num)⟩
  | reset =>
    simp only [applyZoom, resetZoom]
    norm_num

lemma foldl_applyZoom_bounds (ops : List ZoomOp) (s : ℚ)
    (h1 : 4/10 ≤ s) (h2 : s ≤ 3) :
    4/10 ≤ ops.foldl applyZoom s ∧ ops.foldl applyZoom s ≤ 3 := by
  induction ops generalizing s with
  | nil => exact ⟨h1, h2⟩
  | cons op rest ih =>
    simp only [List.foldl_cons]
    exact ih _ (applyZoom_bounds h1 h2 op).1 (applyZoom_bounds h1 h2 op).2

/-! ## The claims -/

/-- C1: an upload of a PDF file that completes successfully creates a Book
record whose identifier is the freshly generated one and occurs exactly
once in the resulting store, whose `lastPage` is 1, `isMarked` is false,
`addedAt` is the upload time, title is the file name with its extension
removed, and `fileName` is the original file name; the record is in the
store afterwards. -/
theorem upload_creates_record (env : UploadEnv) (f : File) (store : List Book)
    (hpdf : f.type = "application/pdf") (hsave : env.saveSucceeds = true)
    (hfresh : ∀ x ∈ store, x.id ≠ env.genId) :
    ∃ nb : Book,
      (handleFileUpload env (some f) store).1 = UploadOutcome.saved nb ∧
      nb.id = env.genId ∧
      (∀ x ∈ store, x.id ≠ nb.id) ∧
      ((handleFileUpload env (some f) store).2.countP fun x => x.id = nb.id) = 1 ∧
      nb.lastPage = 1 ∧
      nb.isMarked = some false ∧
      nb.addedAt = env.now ∧
      nb.title = stripExtension f.name ∧
      nb.fileName = f.name ∧
      nb ∈ (handleFileUpload env (some f) store).2 := by
  refine ⟨newBook env f, ?_, rfl, hfresh, ?_, rfl, rfl, rfl, rfl, rfl, ?_⟩
  · rw [handleFileUpload_pdf env f store hpdf hsave]
  · rw [handleFileUpload_pdf env f store hpdf hsave]
    exact count_id_saveBook store (newBook env f) hfresh
  · rw [handleFileUpload_pdf env f store hpdf hsave]
    exact mem_saveBook store (newBook env f)

/-- Witness for C1: uploading the concrete PDF file into an empty store. -/
theorem upload_creates_record_witness :
    ∃ nb : Book,
      (handleFileUpload envW (some fileW) []).1 = UploadOutcome.saved nb ∧
      nb.id = envW.genId ∧
      (∀ x ∈ ([] : List Book), x.id ≠ nb.id) ∧
      ((handleFileUpload envW (some fileW) []).2.countP fun x => x.id = nb.id) = 1 ∧
      nb.lastPage = 1 ∧
      nb.isMarked = some false ∧
      nb.addedAt = envW.now ∧
      nb.title = stripExtension fileW.name ∧
      nb.fileName = fileW.name ∧
      nb ∈ (handleFileUpload envW (some fileW) []).2 :=
  upload_creates_record envW fileW [] rfl rfl (by simp)

/-- C3: the displayed list contains exactly the stored books whose
lower-cased title contains the lower-cased query as a substring and, when
the marked-only toggle is on, whose marked flag is set; a book titled
"Clean Code" matches the queries "clean", "CODE" and "an co". -/
theorem filtered_list_exact :
    (∀ (books : List Book) (q : String) (marked : Bool) (b : Book),
      b ∈ filteredBooks books q marked ↔
        b ∈ books ∧ jsIncludes (jsToLower b.title) (jsToLower q) = true ∧
          (marked = true → truthy b.isMarked = true)) ∧
    jsIncludes (jsToLower "Clean Code") (jsToLower "clean") = true ∧
    jsIncludes (jsToLower "Clean Code") (jsToLower "CODE") = true ∧
    jsIncludes (jsToLower "Clean Code") (jsToLower "an co") = true := by
  refine ⟨?_, by decide, by decide, by decide⟩
  intro books q marked b
  simp only [filteredBooks, List.mem_filter, bookMatches, Bool.and_eq_true]
  constructor
  · rintro ⟨hb, hs, hm⟩
    refine ⟨hb, hs, ?_⟩
    intro hmk
    subst hmk
    simpa using hm
  · rintro ⟨hb, hs, hm⟩
    refine ⟨hb, hs, ?_⟩
    cases marked with
    | false => simp
    | true => simpa using hm rfl

/-- C4: from the initial scale 1.0, every sequence of zoom operations keeps
the shared scale within [0.4, 3.0]; a zoom-in that would pass 3.0 yields
exactly 3.0, a zoom-out that would pass 0.4 yields exactly 0.4, and
reset-zoom yields 1.0. -/
theorem zoom_scale_bounded :
    (∀ ops : List ZoomOp, 4/10 ≤ runZoom ops ∧ runZoom ops ≤ 3) ∧
    (∀ s : ℚ, 3 ≤ s + 2/10 → zoomIn s = 3) ∧
    (∀ s : ℚ, s - 2/10 ≤ 4/10 → zoomOut s = 4/10) ∧
    initialScale = 1 ∧ resetZoom = 1 := by
  refine ⟨?_, ?_, ?_, rfl, rfl⟩
  · intro ops
    exact foldl_applyZoom_bounds ops initialScale (by norm_num [initialScale])
      (by norm_num [initialScale])
  · intro s h
    rw [zoomIn]
    exact min_eq_right h
  · intro s h
    rw [zoomOut]
    exact max_eq_right h

/-- C5: a file whose MIME type is not application/pdf is rejected with the
alert before anything else runs, and the stored library is unchanged. -/
theorem nonpdf_upload_rejected (env : UploadEnv) (f : File) (store : List Book)
    (h : f.type ≠ "application/pdf") :
    (handleFileUpload env (some f) store).1 = UploadOutcome.rejectedNonPdf ∧
    (handleFileUpload env (some f) store).2 = store := by
  simp [handleFileUpload, h]

/-- Witness for C5: a concrete text file is rejected and the empty store
stays empty. -/
theorem nonpdf_upload_rejected_witness :
    (handleFileUpload envW (some filePlainW) []).1 = UploadOutcome.rejectedNonPdf ∧
    (handleFileUpload envW (some filePlainW) []).2 = [] :=
  nonpdf_upload_rejected envW filePlainW [] (by decide)

/-- C6: when the thumbnail call fails and no summary is produced (the
extraction or the summarization call failed, or the preview was empty), a
valid PDF upload still completes: the record is saved with both fields
absent, it is in the reloaded library and in the displayed list (empty
query, marked-only off), and opening it yields a reader starting on
page 1. -/
theorem enrichment_failure_nonblocking (env : UploadEnv) (f : File) (store : List Book)
    (hpdf : f.type = "application/pdf") (hsave : env.saveSucceeds = true)
    (hthumb : env.thumbnailResult = none) (hsum : uploadedSummary env = none) :
    ∃ nb : Book,
      (handleFileUpload env (some f) store).1 = UploadOutcome.saved nb ∧
      nb.thumbnail = none ∧
      nb.summary = none ∧
      nb ∈ getAllBooks (handleFileUpload env (some f) store).2 ∧
      nb ∈ filteredBooks (getAllBooks (handleFileUpload env (some f) store).2) "" false ∧
      (openReader nb).currentPage = 1 := by
  refine ⟨newBook env f, ?_, hthumb, hsum, ?_, ?_, rfl⟩
  · rw [handleFileUpload_pdf env f store hpdf hsave]
  · rw [handleFileUpload_pdf env f store hpdf hsave]
    exact mem_saveBook store (newBook env f)
  · rw [handleFileUpload_pdf env f store hpdf hsave]
    exact List.mem_filter.mpr
      ⟨mem_saveBook store (newBook env f), bookMatches_empty (newBook env f)⟩

/-- Witness for C6: the concrete upload with both enrichment calls failing
still saves, lists and opens. -/
theorem enrichment_failure_nonblocking_witness :
    ∃ nb : Book,
      (handleFileUpload envW (some fileW) []).1 = UploadOutcome.saved nb ∧
      nb.thumbnail = none ∧
      nb.summary = none ∧
      nb ∈ getAllBooks (handleFileUpload envW (some fileW) []).2 ∧
      nb ∈ filteredBooks (getAllBooks (handleFileUpload envW (some fileW) []).2) "" false ∧
      (openReader nb).currentPage = 1 :=
  enrichment_failure_nonblocking envW fileW [] rfl rfl rfl rfl

/-- C7: the page a navigation click scrolls to is the requested index
clamped to [1, pageCount]: in range it is the request itself, past the last
page it is the last page, below the first it is page 1; the previous-page
button is disabled on page 1 and the next-page button on the last page, so
a click there changes nothing; and no navigation click ever changes the
current page index itself. -/
theorem navigation_clamped (p n : Nat) (hn : 1 ≤ n) :
    (1 ≤ scrollTarget p n ∧ scrollTarget p n ≤ n) ∧
    (1 ≤ p → p ≤ n → scrollTarget p n = p) ∧
    (n ≤ p → scrollTarget p n = n) ∧
    (p = 0 → scrollTarget p n = 1) ∧
    (∀ st : ReaderState, st.currentPage = 1 → clickPrev st = st) ∧
    (∀ st : ReaderState, st.currentPage = st.numPages → clickNext st = st) ∧
    (∀ st : ReaderState, (clickPrev st).currentPage = st.currentPage ∧
      (clickNext st).currentPage = st.currentPage) := by
  refine ⟨⟨le_max_left _ _, max_le hn (min_le_right _ _)⟩, ?_, ?_, ?_, ?_, ?_, ?_⟩
  · intro h1 h2
    rw [scrollTarget, min_eq_left h2, max_eq_right h1]
  · intro h
    rw [scrollTarget, min_eq_right h, max_eq_right hn]
  · intro h
    subst h
    rw [scrollTarget]
    simp
  · intro st h
    rw [clickPrev, if_pos]
    simp [prevDisabled, h]
  · intro st h
    rw [clickNext, if_pos]
    simp [nextDisabled, h]
  · intro st
    constructor
    · rw [clickPrev]
      split <;> rfl
    · rw [clickNext]
      split <;> rfl

/-- Witness for C7: requesting page 7 of a 5-page document clamps to 5, and
the button guards hold for every state. -/
theorem navigation_clamped_witness :
    (1 ≤ scrollTarget 7 5 ∧ scrollTarget 7 5 ≤ 5) ∧
    (1 ≤ 7 → 7 ≤ 5 → scrollTarget 7 5 = 7) ∧
    (5 ≤ 7 → scrollTarget 7 5 = 5) ∧
    (7 = 0 → scrollTarget 7 5 = 1) ∧
    (∀ st : ReaderState, st.currentPage = 1 → clickPrev st = st) ∧
    (∀ st : ReaderState, st.currentPage = st.numPages → clickNext st = st) ∧
    (∀ st : ReaderState, (clickPrev st).currentPage = st.currentPage ∧
      (clickNext st).currentPage = st.currentPage) :=
  navigation_clamped 7 5 (by norm_num)

/-- C8: every page-visibility event immediately makes the visible page the
current page, leaves every other reader field alone, and issues exactly one
`updateLastPage` write carrying that page; when that write succeeds the
stored record with the book's id has `lastPage` set to the page and every
other record is untouched, when it fails the store is untouched — and the
reader state after the event is the same either way, so the failure is
never surfaced. -/
theorem page_visible_persists (bookId : String) (st : ReaderState)
    (store : List Book) (p : Nat) :
    ((handlePageVisible bookId st p).1.currentPage = p) ∧
    ((handlePageVisible bookId st p).1.scale = st.scale) ∧
    ((handlePageVisible bookId st p).1.showControls = st.showControls) ∧
    ((handlePageVisible bookId st p).1.numPages = st.numPages) ∧
    ((handlePageVisible bookId st p).2 = WriteReq.mk bookId p) ∧
    (∀ b ∈ (pageVisibleRound bookId st store p true).2,
      (b.id = bookId → b.lastPage = p) ∧ (b.id ≠ bookId → b ∈ store)) ∧
    ((pageVisibleRound bookId st store p false).2 = store) ∧
    ((pageVisibleRound bookId st store p true).1 =
      (pageVisibleRound bookId st store p false).1) := by
  refine ⟨rfl, rfl, rfl, rfl, rfl, ?_, rfl, rfl⟩
  intro b hb
  simp only [pageVisibleRound, handlePageVisible, applyWrite, if_pos,
    updateLastPage, List.mem_map] at hb
  obtain ⟨a, ha, rfl⟩ := hb
  by_cases hid : a.id = bookId
  · simp [hid]
  · simp [hid, ha]

/-- C9 counterexample: the claim says the controls boolean is toggled iff
the tap lands on the background and not on a page; but in the code a tap
inside a page's container does toggle the controls, and a tap on the
surface's inner background outside every page container (whose target is
not the container element itself) does not. -/
theorem controls_toggle_claim_false :
    claimToggleFires TapTarget.pageContainer = false ∧
    (toggleControls TapTarget.pageContainer readerState0).showControls =
      !readerState0.showControls ∧
    claimToggleFires TapTarget.innerBackground = true ∧
    toggleControls TapTarget.innerBackground readerState0 = readerState0 ∧
    readerState0.showControls = true :=
  ⟨rfl, rfl, rfl, rfl, rfl⟩

/-- C9 (amended): the controls boolean is toggled exactly when the tap hits
the scroll container element itself or lands inside a page's container;
a tap on the surface outside both changes nothing; and no tap ever changes
the current page, scale, page count, document-loaded flag or pending
scroll. -/
theorem controls_toggle_amended (st : ReaderState) :
    ((toggleControls TapTarget.container st).showControls = !st.showControls) ∧
    ((toggleControls TapTarget.pageContainer st).showControls = !st.showControls) ∧
    (toggleControls TapTarget.innerBackground st = st) ∧
    (∀ t : TapTarget,
      (toggleControls t st).currentPage = st.currentPage ∧
      (toggleControls t st).scale = st.scale ∧
      (toggleControls t st).numPages = st.numPages ∧
      (toggleControls t st).docLoaded = st.docLoaded ∧
      (toggleControls t st).pendingScroll = st.pendingScroll) := by
  refine ⟨rfl, rfl, rfl, ?_⟩
  intro t
  cases t <;> exact ⟨rfl, rfl, rfl, rfl, rfl⟩

/-- C10: a record whose stored `lastPage` is falsy (zero) opens the reader
with current page 1 and an initial scroll targeting page 1; for every
record the initial current page is at least 1 and the initial scroll
targets exactly that page. -/
theorem reader_initial_page (b : Book) :
    (b.lastPage = 0 → (openReader b).currentPage = 1 ∧ initialScrollTargetPage b = 1) ∧
    1 ≤ (openReader b).currentPage ∧
    (openReader b).currentPage = initialScrollTargetPage b := by
  refine ⟨?_, ?_, rfl⟩
  · intro h
    constructor
    · simp [openReader, initialCurrentPage, h]
    · simp [initialScrollTargetPage, h]
  · show 1 ≤ initialCurrentPage b
    rw [initialCurrentPage]
    split
    · exact le_refl 1
    · next h => exact Nat.one_le_iff_ne_zero.mpr h

/-- C2 at the failing interleaving: `renderPage` is invoked twice in quick
succession (captured scales 1 and 2), the second call arriving while the
first is still awaiting `getPage`; both calls pass the cancel check (the
ref holds no task yet), so when the two awaits resume, two render tasks
draw to the same page's canvas concurrently; and if the later-requested
task finishes first, the canvas ends at the earlier scale 1, not at the
last requested scale 2. -/
theorem render_race_two_concurrent :
    (runRender [RenderEvent.call 1, RenderEvent.call 2, RenderEvent.getPageDone 0,
      RenderEvent.getPageDone 1]).activeTasks.length = 2 ∧
    (runRender [RenderEvent.call 1, RenderEvent.call 2, RenderEvent.getPageDone 0,
      RenderEvent.getPageDone 1, RenderEvent.taskDone 1,
      RenderEvent.taskDone 0]).canvasScale = some 1 :=
  ⟨by decide, by decide⟩

end Bookii

